import Mathlib

deriving instance DecidableEq for Except

/-!
Verification development for the seccomp notification proxy message layer
(`src/lxcseccomp.rs` of pve-lxc-syscalld).

The Rust module defines a `ProxyMessageBuffer` that receives, validates and
answers seccomp notification proxy messages.  We give a shallow embedding:

* `SeccompNotifSizes`, `SeccompNotifyProxyMsg`, `SeccompNotif`,
  `SeccompNotifResp` mirror the Rust structures (fixed-width machine
  integers become `Nat`/`Int`; the opaque remainder of the kernel
  notification structure is abstracted into a single field).
* `ProxyMessageBuffer` mirrors the Rust struct field by field; the
  `Vec<u8>` cookie buffer becomes a `CookieBuf` with an explicit backing
  store, capacity and logical length, matching the `set_len`/`capacity`
  manipulations of the code.
* Fallible operations return `Except`; the distinct `bail!` messages of
  the code become distinct constructors of `SetLenError` / `RecvError`.
* The platform word size is a parameter `usizeBits`: `usize::try_from`
  on a `u64` value succeeds exactly when the value is `< 2 ^ usizeBits`.
* The asynchronous socket is external to the module; a receive is
  modelled by an `Incoming` record carrying what one atomic
  scatter-read/ancillary-descriptor retrieval delivers.
-/

namespace PveLxcSyscalld

/-- Kernel-reported byte sizes of the seccomp notification structures
(`SeccompNotifSizes` with fields `notif`, `notif_resp`, `data`; the struct
itself lives in `src/seccomp.rs`, its three fields are visible from
`check_sizes` in `src/lxcseccomp.rs`). -/
structure SeccompNotifSizes where
  notif : Nat
  notif_resp : Nat
  data : Nat
deriving DecidableEq, Repr

/-- The fixed envelope `SeccompNotifyProxyMsg` sent ahead of the kernel
structures: reserved guard field (`u64`), monitor pid, container init pid,
the sender's view of the kernel sizes, and the cookie length (`u64`). -/
structure SeccompNotifyProxyMsg where
  reserved0 : Nat
  monitor_pid : Int
  init_pid : Int
  sizes : SeccompNotifSizes
  cookie_len : Nat
deriving DecidableEq, Repr

/-- The kernel seccomp notification structure.  Only its `id` field is
read by this module (`prepare_response`); the rest of the fixed-size
payload is opaque here and abstracted into `rest`. -/
structure SeccompNotif where
  id : Nat
  rest : Nat
deriving DecidableEq, Repr

/-- The kernel seccomp response structure: notification id, return value,
error code and flags (fields written by `prepare_response`). -/
structure SeccompNotifResp where
  id : Nat
  val : Int
  error : Int
  flags : Nat
deriving DecidableEq, Repr

/-- An owned file descriptor (the `Fd` wrapper of `src/tools`). -/
structure Fd where
  raw : Int
deriving DecidableEq, Repr

/-- The cookie buffer: the Rust code keeps a `Vec<u8>` whose capacity is
fixed at allocation time and whose logical length is manipulated
explicitly with `Vec::set_len`.  `store` is the backing storage (always
`capacity` bytes), `len` the logical length. -/
structure CookieBuf where
  capacity : Nat
  store : List Nat
  len : Nat
deriving DecidableEq, Repr

/-- `libc::ENOSYS` ("function not implemented") on Linux. -/
def ENOSYS : Int := 38

/-- `mem::size_of::<SeccompNotifyProxyMsg>()` under `#[repr(C)]`:
`u64` (8) + `pid_t` (4) + `pid_t` (4) + three `u16` sizes (6) +
2 bytes padding to the 8-byte alignment of the trailing `u64` + `u64` (8)
= 32 bytes. -/
def proxyMsgSize : Nat := 32

/-- The proxy message buffer, field by field after the Rust struct. -/
structure ProxyMessageBuffer where
  proxy_msg : SeccompNotifyProxyMsg
  seccomp_notif : SeccompNotif
  seccomp_resp : SeccompNotifResp
  cookie_buf : CookieBuf
  sizes : SeccompNotifSizes
  seccomp_packet_size : Nat
  pid_fd : Option Fd
  mem_fd : Option Fd
deriving DecidableEq, Repr

/-- Modelled from the spec: `tools::vec::uninitialized(max_cookie)` lives
in `src/tools`, outside the given sources; per the spec the cookie region
is "sized to `max_cookie` bytes (content uninitialized/logically empty
until a receive fills it)".  The uninitialized bytes are modelled as
zeros. -/
def uninitializedCookieBuf (max_cookie : Nat) : CookieBuf :=
  ⟨max_cookie, List.replicate max_cookie 0, 0⟩

/-- `ProxyMessageBuffer::new(max_cookie)`: zero-initialized envelope and
kernel structures, an uninitialized cookie buffer of capacity
`max_cookie`, the captured kernel sizes, the precomputed fixed packet
size, and no owned descriptors. -/
def ProxyMessageBuffer.new (kernelSizes : SeccompNotifSizes) (max_cookie : Nat) :
    ProxyMessageBuffer :=
  { proxy_msg := ⟨0, 0, 0, ⟨0, 0, 0⟩, 0⟩
    seccomp_notif := ⟨0, 0⟩
    seccomp_resp := ⟨0, 0, 0, 0⟩
    cookie_buf := uninitializedCookieBuf max_cookie
    sizes := kernelSizes
    seccomp_packet_size := proxyMsgSize + kernelSizes.notif + kernelSizes.notif_resp
    pid_fd := none
    mem_fd := none }

/-- `ProxyMessageBuffer::check_sizes`: the envelope's three size fields
must equal the captured kernel sizes. -/
def ProxyMessageBuffer.check_sizes (b : ProxyMessageBuffer) : Bool :=
  b.proxy_msg.sizes.notif == b.sizes.notif
    && b.proxy_msg.sizes.notif_resp == b.sizes.notif_resp
    && b.proxy_msg.sizes.data == b.sizes.data

/-- `ProxyMessageBuffer::prepare_response`: copy the notification id into
the response and set the fail-closed default verdict. -/
def ProxyMessageBuffer.prepare_response (b : ProxyMessageBuffer) : ProxyMessageBuffer :=
  { b with seccomp_resp := ⟨b.seccomp_notif.id, -1, -ENOSYS, 0⟩ }

/-- The distinct `bail!` failures of `ProxyMessageBuffer::set_len`, in
source order.  `unexpectedCookieLen` carries the three numbers the
diagnostic message reports (packet size, cookie length, total length). -/
inductive SetLenError where
  | tooShort
  | protocolMismatch
  | sizeValidationFailed
  | tooLong
  | cookieLenOverflow
  | unexpectedCookieLen (packetSize cookieLen totalLen : Nat)
deriving DecidableEq, Repr

/-- `ProxyMessageBuffer::set_len(len)`: the six validation checks in
source order with short-circuit, returning the outcome together with the
(possibly mutated) buffer.  `usizeBits` is the platform word width:
`usize::try_from(cookie_len)` succeeds iff `cookie_len < 2 ^ usizeBits`.
On the overflow failure the stored `cookie_len` is reset to zero; on full
success the cookie's logical length becomes `cookie_len` and
`prepare_response` runs. -/
def ProxyMessageBuffer.set_len (usizeBits : Nat) (b : ProxyMessageBuffer) (len : Nat) :
    Except SetLenError Unit × ProxyMessageBuffer :=
  if len < b.seccomp_packet_size then
    (.error .tooShort, b)
  else if b.proxy_msg.reserved0 ≠ 0 then
    (.error .protocolMismatch, b)
  else if !b.check_sizes then
    (.error .sizeValidationFailed, b)
  else if len - b.seccomp_packet_size > b.cookie_buf.capacity then
    (.error .tooLong, b)
  else if b.proxy_msg.cookie_len < 2 ^ usizeBits then
    if len ≠ b.seccomp_packet_size + b.proxy_msg.cookie_len then
      (.error (.unexpectedCookieLen b.seccomp_packet_size b.proxy_msg.cookie_len len), b)
    else
      (.ok (),
        ({ b with cookie_buf := { b.cookie_buf with len := b.proxy_msg.cookie_len } }).prepare_response)
  else
    (.error .cookieLenOverflow,
      { b with proxy_msg := { b.proxy_msg with cookie_len := 0 } })

/-- `ProxyMessageBuffer::drop_fds`: release both descriptors. -/
def ProxyMessageBuffer.drop_fds (b : ProxyMessageBuffer) : ProxyMessageBuffer :=
  { b with pid_fd := none, mem_fd := none }

/-- What one call of the external transport's
`recv_fds_vectored(iovec, 2)` delivers: the bytes it writes into the four
exposed regions (decoded as envelope / notification / response values and
raw cookie bytes), the reported byte count and the ancillary descriptors
(at most two are retrieved). -/
structure Incoming where
  msg : SeccompNotifyProxyMsg
  notif : SeccompNotif
  resp : SeccompNotifResp
  cookieBytes : List Nat
  size : Nat
  fds : List Fd
deriving DecidableEq, Repr

/-- The failures of `ProxyMessageBuffer::recv`: a validation failure
propagated from `set_len`, or the missing-descriptors `bail!`. -/
inductive RecvError where
  | validation (e : SetLenError)
  | missingFds
deriving DecidableEq, Repr

/-- The state mutations `recv` performs before the scatter read: reset
the envelope's `cookie_len` to zero, and reset the cookie buffer's
logical length to zero (the code grows it to full capacity only to build
the iovec, then truncates it back before awaiting the read). -/
def ProxyMessageBuffer.resetForRead (b : ProxyMessageBuffer) : ProxyMessageBuffer :=
  { b with
    proxy_msg := { b.proxy_msg with cookie_len := 0 }
    cookie_buf := { b.cookie_buf with len := 0 } }

/-- Modelled from the spec: the scatter read of the external
`AsyncSeqPacketSocket` lives in `src/socket`, outside the given sources.
Per the spec it "replaces envelope/notification/response contents ... on
any nonzero read": the three fixed regions take the delivered values, and
the delivered cookie bytes overwrite a prefix of the cookie store (the
region is exposed at full capacity for the read). -/
def ProxyMessageBuffer.deliver (b : ProxyMessageBuffer) (inc : Incoming) :
    ProxyMessageBuffer :=
  let b0 := b.resetForRead
  { b0 with
    proxy_msg := inc.msg
    seccomp_notif := inc.notif
    seccomp_resp := inc.resp
    cookie_buf := { b0.cookie_buf with
      store := inc.cookieBytes.take b0.cookie_buf.capacity
        ++ b0.cookie_buf.store.drop (min inc.cookieBytes.length b0.cookie_buf.capacity) } }

/-- `ProxyMessageBuffer::recv`: reset the cookie length fields, perform
the scatter read; a zero byte count is end of stream (`Ok(false)`);
otherwise validate via `set_len`, then take over the (at most two)
received descriptors, failing with the missing-descriptors error (and
dropping both descriptors) when fewer than two arrived. -/
def ProxyMessageBuffer.recv (usizeBits : Nat) (b : ProxyMessageBuffer) (inc : Incoming) :
    Except RecvError Bool × ProxyMessageBuffer :=
  if inc.size = 0 then
    (.ok false, b.resetForRead)
  else
    match (b.deliver inc).set_len usizeBits inc.size with
    | (.error e, b2) => (.error (.validation e), b2)
    | (.ok _, b2) =>
      let b3 := { b2 with pid_fd := inc.fds[0]?, mem_fd := inc.fds[1]? }
      if b3.mem_fd.isNone then
        (.error .missingFds, b3.drop_fds)
      else
        (.ok true, b3)

/-- A tagged byte region of a scatter write. -/
inductive Region where
  | envelopeRegion (msg : SeccompNotifyProxyMsg)
  | notifRegion (n : SeccompNotif)
  | respRegion (r : SeccompNotifResp)
  | cookieRegion (bytes : List Nat)
deriving DecidableEq, Repr

/-- `ProxyMessageBuffer::respond`: the iovec handed to
`sendmsg_vectored` — envelope, notification, response, in that order.
The buffer is not mutated. -/
def ProxyMessageBuffer.respond (b : ProxyMessageBuffer) : List Region :=
  [.envelopeRegion b.proxy_msg, .notifRegion b.seccomp_notif, .respRegion b.seccomp_resp]

/-- `ProxyMessageBuffer::cookie`: the slice of the cookie buffer at its
logical length. -/
def ProxyMessageBuffer.cookie (b : ProxyMessageBuffer) : List Nat :=
  b.cookie_buf.store.take b.cookie_buf.len

/-- `ProxyMessageBuffer::cookie_len`: converts the stored `u64` cookie
length to `usize`, panicking on overflow (`expect`); the panic is
modelled as `none`. -/
def ProxyMessageBuffer.cookie_len (usizeBits : Nat) (b : ProxyMessageBuffer) : Option Nat :=
  if b.proxy_msg.cookie_len < 2 ^ usizeBits then some b.proxy_msg.cookie_len else none

/-- Structural well-formedness of the buffer: the cookie backing store
holds exactly `capacity` bytes (true of a real `Vec` allocation, and
preserved by every operation here). -/
def ProxyMessageBuffer.WF (b : ProxyMessageBuffer) : Prop :=
  b.cookie_buf.store.length = b.cookie_buf.capacity

instance (b : ProxyMessageBuffer) : Decidable b.WF := by
  unfold ProxyMessageBuffer.WF; infer_instance

/-! ## Concrete sample data (used by witnesses and counterexamples) -/

/-- Sample kernel size descriptor: notification structure 4 bytes,
response structure 4 bytes, data area 0 bytes. -/
def sampleSizes : SeccompNotifSizes := ⟨4, 4, 0⟩

/-- A freshly constructed buffer with cookie capacity 8; its fixed packet
size is `32 + 4 + 4 = 40`. -/
def sampleBuf : ProxyMessageBuffer := ProxyMessageBuffer.new sampleSizes 8

/-- A fully valid incoming message: reserved zero, matching sizes, cookie
length 2, total 42 bytes, two descriptors. -/
def goodIncoming : Incoming :=
  { msg := ⟨0, 7, 8, ⟨4, 4, 0⟩, 2⟩
    notif := ⟨99, 5⟩
    resp := ⟨0, 0, 0, 0⟩
    cookieBytes := [1, 2]
    size := 42
    fds := [⟨3⟩, ⟨4⟩] }

/-- The buffer after successfully receiving `goodIncoming` on a 64-bit
platform: it holds a validated message with cookie length 2 and owns two
descriptors. -/
def staleBuf : ProxyMessageBuffer := (sampleBuf.recv 64 goodIncoming).2

/-- An end-of-stream receive: zero byte count, no descriptors. -/
def eofIncoming : Incoming :=
  { msg := ⟨0, 0, 0, ⟨0, 0, 0⟩, 0⟩, notif := ⟨0, 0⟩, resp := ⟨0, 0, 0, 0⟩
    cookieBytes := [], size := 0, fds := [] }

/-- A 1-byte (too short) message with no descriptors. -/
def shortIncomingNoFds : Incoming :=
  { msg := ⟨0, 0, 0, ⟨4, 4, 0⟩, 0⟩, notif := ⟨0, 0⟩, resp := ⟨0, 0, 0, 0⟩
    cookieBytes := [], size := 1, fds := [] }

/-- A 1-byte (too short) message accompanied by two descriptors. -/
def shortIncomingTwoFds : Incoming :=
  { shortIncomingNoFds with fds := [⟨7⟩, ⟨8⟩] }

/-- A structurally valid message accompanied by only one descriptor. -/
def oneFdIncoming : Incoming := { goodIncoming with fds := [⟨3⟩] }

/-- A message whose `cookie_len` (`2 ^ 32`) does not fit a 32-bit
`usize`, with all earlier checks passing (total 41 bytes). -/
def overflowIncoming : Incoming :=
  { msg := ⟨0, 0, 0, ⟨4, 4, 0⟩, 2 ^ 32⟩, notif := ⟨0, 0⟩, resp := ⟨0, 0, 0, 0⟩
    cookieBytes := [0], size := 41, fds := [⟨3⟩, ⟨4⟩] }


/-- A delivered-but-not-yet-validated buffer used by several witnesses:
`sampleBuf` after the scatter read of `goodIncoming`. -/
def deliveredGood : ProxyMessageBuffer := sampleBuf.deliver goodIncoming


/-- The actual effect of a zero-byte receive: end of stream is reported,
the notification, response, descriptors, cookie store and all other
envelope fields are untouched, but the envelope's `cookie_len` field and
the cookie region's logical length are reset to zero (`recv` performs
both resets before the read, so they stick on the end-of-stream path). -/
def zeroReadEffectProp (u : Nat) (b : ProxyMessageBuffer) (inc : Incoming) : Prop :=
  (b.recv u inc).1 = .ok false ∧
  (b.recv u inc).2 = b.resetForRead ∧
  (b.recv u inc).2.seccomp_notif = b.seccomp_notif ∧
  (b.recv u inc).2.seccomp_resp = b.seccomp_resp ∧
  (b.recv u inc).2.pid_fd = b.pid_fd ∧
  (b.recv u inc).2.mem_fd = b.mem_fd ∧
  (b.recv u inc).2.cookie_buf.store = b.cookie_buf.store ∧
  (b.recv u inc).2.cookie_buf.capacity = b.cookie_buf.capacity ∧
  (b.recv u inc).2.proxy_msg.monitor_pid = b.proxy_msg.monitor_pid ∧
  (b.recv u inc).2.proxy_msg.init_pid = b.proxy_msg.init_pid ∧
  (b.recv u inc).2.proxy_msg.sizes = b.proxy_msg.sizes ∧
  (b.recv u inc).2.proxy_msg.reserved0 = b.proxy_msg.reserved0 ∧
  (b.recv u inc).2.proxy_msg.cookie_len = 0 ∧
  (b.recv u inc).2.cookie_buf.len = 0


/-- The actual replacement behaviour of a nonzero receive: the
notification is replaced by the received value; the envelope is replaced
by the received value except that its `cookie_len` may have been reset to
zero (overflow error path); the response is replaced by the received
value unless validation succeeded, in which case it holds the prepared
default verdict; descriptor ownership is replaced (or cleared) only when
validation succeeds, and is left at its previous value when validation
fails. -/
def recvReplaceProp (u : Nat) (b : ProxyMessageBuffer) (inc : Incoming) : Prop :=
  (b.recv u inc).2.seccomp_notif = inc.notif ∧
  ((b.recv u inc).2.proxy_msg = inc.msg ∨
   (b.recv u inc).2.proxy_msg = { inc.msg with cookie_len := 0 }) ∧
  ((b.recv u inc).2.seccomp_resp = inc.resp ∨
   (b.recv u inc).2.seccomp_resp = ⟨inc.notif.id, -1, -ENOSYS, 0⟩) ∧
  (((b.deliver inc).set_len u inc.size).1 = .ok () →
    ((b.recv u inc).2.pid_fd = inc.fds[0]? ∧ (b.recv u inc).2.mem_fd = inc.fds[1]?) ∨
    ((b.recv u inc).2.pid_fd = none ∧ (b.recv u inc).2.mem_fd = none)) ∧
  (∀ e, ((b.deliver inc).set_len u inc.size).1 = .error e →
    (b.recv u inc).2.pid_fd = b.pid_fd ∧ (b.recv u inc).2.mem_fd = b.mem_fd)


/-- The cookie-length invariant across one receive: a zero-byte receive
leaves the logical length (and the exposed cookie slice) at zero; every
validation failure leaves them at zero; and in general the logical length
is either zero or the message validated successfully and the logical
length equals the validated `cookie_len`, is within capacity, and is
exactly the length of the slice the `cookie()` accessor exposes. -/
def cookieLenInvariantProp (u : Nat) (b : ProxyMessageBuffer) (inc : Incoming) : Prop :=
  (inc.size = 0 →
    (b.recv u inc).2.cookie_buf.len = 0 ∧ (b.recv u inc).2.cookie.length = 0) ∧
  (∀ e, (b.recv u inc).1 = .error (.validation e) →
    (b.recv u inc).2.cookie_buf.len = 0 ∧ (b.recv u inc).2.cookie.length = 0) ∧
  ((b.recv u inc).2.cookie_buf.len = 0 ∨
    (((b.deliver inc).set_len u inc.size).1 = .ok () ∧
     (b.recv u inc).2.cookie_buf.len = (b.recv u inc).2.proxy_msg.cookie_len ∧
     (b.recv u inc).2.cookie_buf.len ≤ (b.recv u inc).2.cookie_buf.capacity ∧
     (b.recv u inc).2.cookie.length = (b.recv u inc).2.cookie_buf.len))


/-! ## Helper lemmas -/

/-- The outcome of `set_len` as a function of the six checks: each error
occurs exactly when all earlier checks pass and its own check fails, and
success occurs exactly when all six checks pass. -/
def setLenCheckOrderProp (u : Nat) (b : ProxyMessageBuffer) (len : Nat) : Prop :=
  ((b.set_len u len).1 = .error .tooShort ↔
      ¬ b.seccomp_packet_size ≤ len)
  ∧ ((b.set_len u len).1 = .error .protocolMismatch ↔
      b.seccomp_packet_size ≤ len ∧ b.proxy_msg.reserved0 ≠ 0)
  ∧ ((b.set_len u len).1 = .error .sizeValidationFailed ↔
      b.seccomp_packet_size ≤ len ∧ b.proxy_msg.reserved0 = 0 ∧
      b.check_sizes = false)
  ∧ ((b.set_len u len).1 = .error .tooLong ↔
      b.seccomp_packet_size ≤ len ∧ b.proxy_msg.reserved0 = 0 ∧
      b.check_sizes = true ∧
      b.cookie_buf.capacity < len - b.seccomp_packet_size)
  ∧ ((b.set_len u len).1 = .error .cookieLenOverflow ↔
      b.seccomp_packet_size ≤ len ∧ b.proxy_msg.reserved0 = 0 ∧
      b.check_sizes = true ∧
      len - b.seccomp_packet_size ≤ b.cookie_buf.capacity ∧
      ¬ b.proxy_msg.cookie_len < 2 ^ u)
  ∧ ((∃ ps cl tl, (b.set_len u len).1 = .error (.unexpectedCookieLen ps cl tl)) ↔
      b.seccomp_packet_size ≤ len ∧ b.proxy_msg.reserved0 = 0 ∧
      b.check_sizes = true ∧
      len - b.seccomp_packet_size ≤ b.cookie_buf.capacity ∧
      b.proxy_msg.cookie_len < 2 ^ u ∧
      len ≠ b.seccomp_packet_size + b.proxy_msg.cookie_len)
  ∧ ((b.set_len u len).1 = .ok () ↔
      b.seccomp_packet_size ≤ len ∧ b.proxy_msg.reserved0 = 0 ∧
      b.check_sizes = true ∧
      len - b.seccomp_packet_size ≤ b.cookie_buf.capacity ∧
      b.proxy_msg.cookie_len < 2 ^ u ∧
      len = b.seccomp_packet_size + b.proxy_msg.cookie_len)

theorem set_len_cases (u : Nat) (b : ProxyMessageBuffer) (len : Nat) :
    setLenCheckOrderProp u b len := by
  unfold setLenCheckOrderProp ProxyMessageBuffer.set_len
  split_ifs with h1 h2 h3 h4 h5 h6
  all_goals refine ⟨?_, ?_, ?_, ?_, ?_, ?_, ?_⟩
  all_goals (simp_all; try omega)

theorem set_len_ok_snd (u : Nat) (b : ProxyMessageBuffer) (len : Nat)
    (h : (b.set_len u len).1 = .ok ()) :
    (b.set_len u len).2 =
      { b with
        cookie_buf := { b.cookie_buf with len := b.proxy_msg.cookie_len }
        seccomp_resp := ⟨b.seccomp_notif.id, -1, -ENOSYS, 0⟩ } := by
  unfold ProxyMessageBuffer.set_len at h ⊢
  split_ifs at h ⊢ <;> simp_all [ProxyMessageBuffer.prepare_response]

theorem set_len_err_snd (u : Nat) (b : ProxyMessageBuffer) (len : Nat) (e : SetLenError)
    (h : (b.set_len u len).1 = .error e) :
    (b.set_len u len).2 = b ∨
    (e = .cookieLenOverflow ∧
     (b.set_len u len).2 = { b with proxy_msg := { b.proxy_msg with cookie_len := 0 } }) := by
  unfold ProxyMessageBuffer.set_len at h ⊢
  split_ifs at h ⊢ <;> simp_all

theorem set_len_overflow_snd (u : Nat) (b : ProxyMessageBuffer) (len : Nat)
    (h : (b.set_len u len).1 = .error .cookieLenOverflow) :
    (b.set_len u len).2 =
      { b with proxy_msg := { b.proxy_msg with cookie_len := 0 } } := by
  unfold ProxyMessageBuffer.set_len at h ⊢
  split_ifs at h ⊢ <;> simp_all

theorem deliver_WF (b : ProxyMessageBuffer) (inc : Incoming) (hwf : b.WF) :
    (b.deliver inc).WF := by
  unfold ProxyMessageBuffer.WF at hwf ⊢
  simp only [ProxyMessageBuffer.deliver, ProxyMessageBuffer.resetForRead,
    List.length_append, List.length_take, List.length_drop]
  omega

theorem recv_nonzero (u : Nat) (b : ProxyMessageBuffer) (inc : Incoming)
    (hsz : inc.size ≠ 0) :
    b.recv u inc =
      match (b.deliver inc).set_len u inc.size with
      | (.error e, b2) => (.error (.validation e), b2)
      | (.ok _, b2) =>
        let b3 := { b2 with pid_fd := inc.fds[0]?, mem_fd := inc.fds[1]? }
        if b3.mem_fd.isNone then (.error .missingFds, b3.drop_fds)
        else (.ok true, b3) := by
  unfold ProxyMessageBuffer.recv
  rw [if_neg hsz]

/-- Inversion for a fully successful receive: the byte count was nonzero,
validation succeeded, a second descriptor arrived, and the final state is
the validated state with both descriptors installed. -/
theorem recv_ok_true_inv (u : Nat) (b : ProxyMessageBuffer) (inc : Incoming)
    (h : (b.recv u inc).1 = .ok true) :
    inc.size ≠ 0 ∧
    ((b.deliver inc).set_len u inc.size).1 = .ok () ∧
    inc.fds[1]?.isSome ∧
    (b.recv u inc).2 =
      { ((b.deliver inc).set_len u inc.size).2 with
        pid_fd := inc.fds[0]?, mem_fd := inc.fds[1]? } := by
  by_cases hsz : inc.size = 0
  · unfold ProxyMessageBuffer.recv at h
    rw [if_pos hsz] at h
    exact absurd h (by simp)
  · rw [recv_nonzero u b inc hsz] at h ⊢
    rcases hp : (b.deliver inc).set_len u inc.size with ⟨r, b2⟩
    rw [hp] at h
    cases r with
    | error e => simp at h
    | ok a =>
      cases a
      simp only at h ⊢
      split_ifs at h ⊢ with hm
      have hm2 : inc.fds[1]?.isSome = true := by
        rcases hfd : inc.fds[1]? with _ | x
        · rw [hfd] at hm; simp at hm
        · rfl
      exact ⟨hsz, by simp [hp], hm2, rfl⟩

/-- `recv` preserves the backing-store well-formedness of the buffer. -/
theorem recv_WF (u : Nat) (b : ProxyMessageBuffer) (inc : Incoming)
    (hwf : b.WF) :
    (b.recv u inc).2.WF := by
  have hdel : (b.deliver inc).WF := deliver_WF b inc hwf
  unfold ProxyMessageBuffer.WF at hwf ⊢
  unfold ProxyMessageBuffer.recv
  split_ifs with hsz
  · exact hwf
  · rcases hp : (b.deliver inc).set_len u inc.size with ⟨r, b2⟩
    have hb2 : b2.cookie_buf.store.length = b2.cookie_buf.capacity := by
      cases r with
      | error e =>
        have := set_len_err_snd u (b.deliver inc) inc.size e (by rw [hp])
        rw [hp] at this
        unfold ProxyMessageBuffer.WF at hdel
        rcases this with h | ⟨_, h⟩ <;> simp only at h <;> rw [h] <;> exact hdel
      | ok a =>
        cases a
        have := set_len_ok_snd u (b.deliver inc) inc.size (by rw [hp])
        rw [hp] at this
        unfold ProxyMessageBuffer.WF at hdel
        simp only at this
        rw [this]
        exact hdel
    cases r with
    | error e => exact hb2
    | ok a =>
      cases a
      simp only
      split_ifs <;> simp [ProxyMessageBuffer.drop_fds, hb2]

example : (sampleBuf.recv 64 goodIncoming).1 = .ok true := by decide
example : staleBuf.proxy_msg.cookie_len = 2 := by decide
example : staleBuf.cookie_buf.len = 2 := by decide
example : staleBuf.pid_fd = some ⟨3⟩ ∧ staleBuf.mem_fd = some ⟨4⟩ := by decide
example : staleBuf.cookie = [1, 2] := by decide
example : staleBuf.seccomp_resp = ⟨99, -1, -38, 0⟩ := by decide
example : (staleBuf.recv 64 shortIncomingNoFds).1 = .error (.validation .tooShort) := by
  decide
example : (sampleBuf.recv 32 overflowIncoming).1 = .error (.validation .cookieLenOverflow) := by
  decide
example : (sampleBuf.recv 64 oneFdIncoming).1 = .error .missingFds := by decide

/-! ## Claims -/

/-- C1: for every nonzero byte count passed to `set_len`, the six checks
run in source order with short-circuit on the first failure, each failing
with its own labeled error (`setLenCheckOrderProp` states, for each of
the six errors, that it is returned exactly when all earlier checks pass
and its own check fails, and that success is returned exactly when all
six checks pass).  In particular an input violating an earlier check
reports that earlier check's error even when later checks would also
fail. -/
theorem C1_validation_check_order (u : Nat) (b : ProxyMessageBuffer) (len : Nat)
    (_hlen : 0 < len) : setLenCheckOrderProp u b len :=
  set_len_cases u b len

theorem C1_validation_check_order_witness :
    0 < 1 ∧ setLenCheckOrderProp 64 staleBuf 1 :=
  ⟨by decide, C1_validation_check_order 64 staleBuf 1 (by decide)⟩

/-- C2: given the other structural checks (reserved field zero, size
fields matching, cookie length within capacity and fitting the platform
size type), `set_len` succeeds if and only if the byte count equals
`seccomp_packet_size + cookie_len` exactly — no off-by-one tolerance —
and on success the cookie region's logical length is grown to exactly
`cookie_len`. -/
theorem C2_validation_exact_equality (u : Nat) (b : ProxyMessageBuffer) (len : Nat)
    (h2 : b.proxy_msg.reserved0 = 0) (h3 : b.check_sizes = true)
    (h4 : b.proxy_msg.cookie_len ≤ b.cookie_buf.capacity)
    (h5 : b.proxy_msg.cookie_len < 2 ^ u) :
    ((b.set_len u len).1 = .ok () ↔
      len = b.seccomp_packet_size + b.proxy_msg.cookie_len) ∧
    ((b.set_len u len).1 = .ok () →
      (b.set_len u len).2.cookie_buf.len = b.proxy_msg.cookie_len) := by
  obtain ⟨-, -, -, -, -, -, hok⟩ := set_len_cases u b len
  constructor
  · rw [hok]
    constructor
    · tauto
    · intro h6
      exact ⟨by omega, h2, h3, by omega, h5, h6⟩
  · intro h
    rw [set_len_ok_snd u b len h]

theorem C2_validation_exact_equality_witness :
    (deliveredGood.proxy_msg.reserved0 = 0 ∧
     deliveredGood.check_sizes = true ∧
     deliveredGood.proxy_msg.cookie_len ≤ deliveredGood.cookie_buf.capacity ∧
     deliveredGood.proxy_msg.cookie_len < 2 ^ 64) ∧
    (((deliveredGood.set_len 64 42).1 = .ok () ↔
       42 = deliveredGood.seccomp_packet_size + deliveredGood.proxy_msg.cookie_len) ∧
     ((deliveredGood.set_len 64 42).1 = .ok () →
       (deliveredGood.set_len 64 42).2.cookie_buf.len =
         deliveredGood.proxy_msg.cookie_len)) :=
  ⟨⟨by decide, by decide, by decide, by decide⟩,
   C2_validation_exact_equality 64 deliveredGood 42
     (by decide) (by decide) (by decide) (by decide)⟩

/-- C3 counterexample: the claim says a zero-byte receive leaves the
buffer state unchanged, including the envelope's `cookie_len` and the
cookie logical length.  `staleBuf` holds a successfully validated message
with `cookie_len = 2` and logical cookie length 2; a zero-byte receive
returns end-of-stream but zeroes both, so the state was mutated. -/
theorem C3_zero_read_counterexample :
    (staleBuf.recv 64 eofIncoming).1 = .ok false ∧
    staleBuf.proxy_msg.cookie_len = 2 ∧
    (staleBuf.recv 64 eofIncoming).2.proxy_msg.cookie_len = 0 ∧
    staleBuf.cookie_buf.len = 2 ∧
    (staleBuf.recv 64 eofIncoming).2.cookie_buf.len = 0 ∧
    (staleBuf.recv 64 eofIncoming).2 ≠ staleBuf := by decide

/-- C3 (amended): a zero-byte receive always yields the end-of-stream
result `Ok(false)` and leaves the notification, response, both owned
descriptors, the cookie store and the other envelope fields unchanged,
but resets the envelope's `cookie_len` field and the cookie region's
logical length to zero. -/
theorem C3_zero_read_effect (u : Nat) (b : ProxyMessageBuffer) (inc : Incoming)
    (h : inc.size = 0) : zeroReadEffectProp u b inc := by
  unfold zeroReadEffectProp ProxyMessageBuffer.recv
  rw [if_pos h]
  simp [ProxyMessageBuffer.resetForRead]

theorem C3_zero_read_effect_witness :
    eofIncoming.size = 0 ∧ zeroReadEffectProp 64 staleBuf eofIncoming :=
  ⟨rfl, C3_zero_read_effect 64 staleBuf eofIncoming rfl⟩

/-- C4 counterexample: the claim says every nonzero receive delivering
fewer than two descriptors fails with the missing-descriptors error and
leaves zero owned descriptors.  But validation runs first: a too-short
message with zero descriptors fails with the too-short error, and the
buffer still owns both descriptors of the previous message. -/
theorem C4_missing_fds_counterexample :
    shortIncomingNoFds.size ≠ 0 ∧
    shortIncomingNoFds.fds.length < 2 ∧
    staleBuf.pid_fd = some ⟨3⟩ ∧
    (staleBuf.recv 64 shortIncomingNoFds).1 = .error (.validation .tooShort) ∧
    (staleBuf.recv 64 shortIncomingNoFds).1 ≠ .error .missingFds ∧
    (staleBuf.recv 64 shortIncomingNoFds).2.pid_fd = some ⟨3⟩ ∧
    (staleBuf.recv 64 shortIncomingNoFds).2.mem_fd = some ⟨4⟩ := by decide

/-- C4 (amended): for every nonzero receive whose message passes
validation but which delivers fewer than two ancillary descriptors, the
call fails with the missing-descriptors error and afterwards the buffer
owns zero descriptors (a single arriving descriptor is never retained);
when validation fails instead, the validation error is reported and the
previously owned descriptors are kept. -/
theorem C4_missing_fds (u : Nat) (b : ProxyMessageBuffer) (inc : Incoming)
    (hsz : inc.size ≠ 0)
    (hok : ((b.deliver inc).set_len u inc.size).1 = .ok ())
    (hfds : inc.fds.length < 2) :
    (b.recv u inc).1 = .error .missingFds ∧
    (b.recv u inc).2.pid_fd = none ∧
    (b.recv u inc).2.mem_fd = none := by
  rw [recv_nonzero u b inc hsz]
  rcases hp : (b.deliver inc).set_len u inc.size with ⟨r, b2⟩
  rw [hp] at hok
  cases r with
  | error e => simp at hok
  | ok a =>
    cases a
    have h1 : inc.fds[1]? = none := List.getElem?_eq_none (by omega)
    simp [h1, ProxyMessageBuffer.drop_fds]

theorem C4_missing_fds_witness :
    (oneFdIncoming.size ≠ 0 ∧
     ((sampleBuf.deliver oneFdIncoming).set_len 64 oneFdIncoming.size).1 = .ok () ∧
     oneFdIncoming.fds.length < 2) ∧
    ((sampleBuf.recv 64 oneFdIncoming).1 = .error .missingFds ∧
     (sampleBuf.recv 64 oneFdIncoming).2.pid_fd = none ∧
     (sampleBuf.recv 64 oneFdIncoming).2.mem_fd = none) :=
  ⟨⟨by decide, by decide, by decide⟩,
   C4_missing_fds 64 sampleBuf oneFdIncoming (by decide) (by decide) (by decide)⟩

/-- C5: after every successful validation, the response's id equals the
notification's id, its return value is `-1`, its error field is
`-ENOSYS` ("function not implemented") and its flags are zero.  In the
embedding the only state-changing operations besides `recv`/`set_len`
are `drop_fds` (shown here to preserve the response) and direct writes
through the mutable response accessor; `respond` and the read accessors
take the buffer immutably, so these defaults persist until the caller
overwrites the response. -/
theorem C5_response_defaults (u : Nat) (b : ProxyMessageBuffer) (len : Nat)
    (h : (b.set_len u len).1 = .ok ()) :
    (b.set_len u len).2.seccomp_resp.id = (b.set_len u len).2.seccomp_notif.id ∧
    (b.set_len u len).2.seccomp_resp.val = -1 ∧
    (b.set_len u len).2.seccomp_resp.error = -ENOSYS ∧
    (b.set_len u len).2.seccomp_resp.flags = 0 ∧
    (b.set_len u len).2.drop_fds.seccomp_resp = (b.set_len u len).2.seccomp_resp := by
  rw [set_len_ok_snd u b len h]
  simp [ProxyMessageBuffer.drop_fds]

theorem C5_response_defaults_witness :
    (deliveredGood.set_len 64 42).1 = .ok () ∧
    ((deliveredGood.set_len 64 42).2.seccomp_resp.id =
       (deliveredGood.set_len 64 42).2.seccomp_notif.id ∧
     (deliveredGood.set_len 64 42).2.seccomp_resp.val = -1 ∧
     (deliveredGood.set_len 64 42).2.seccomp_resp.error = -ENOSYS ∧
     (deliveredGood.set_len 64 42).2.seccomp_resp.flags = 0 ∧
     (deliveredGood.set_len 64 42).2.drop_fds.seccomp_resp =
       (deliveredGood.set_len 64 42).2.seccomp_resp) :=
  ⟨by decide, C5_response_defaults 64 deliveredGood 42 (by decide)⟩

/-- C6: `respond` sends exactly three regions — the envelope, the
notification structure and the response structure, in that fixed order —
as one scatter write, and a cookie region never appears in the outgoing
message. -/
theorem C6_respond_fixed_regions (b : ProxyMessageBuffer) :
    b.respond = [.envelopeRegion b.proxy_msg, .notifRegion b.seccomp_notif,
      .respRegion b.seccomp_resp] ∧
    b.respond.length = 3 ∧
    ∀ bytes, Region.cookieRegion bytes ∉ b.respond := by
  refine ⟨rfl, rfl, ?_⟩
  intro bytes
  simp [ProxyMessageBuffer.respond]

/-- C7 counterexample: the claim says descriptor ownership is replaced
unconditionally on any nonzero read, even when validation fails.  But on
a validation failure `recv` returns before touching the descriptors:
receiving a too-short message carrying descriptors 7 and 8 into a buffer
that owns descriptors 3 and 4 leaves 3 and 4 in place. -/
theorem C7_recv_replaces_counterexample :
    shortIncomingTwoFds.size ≠ 0 ∧
    staleBuf.pid_fd = some ⟨3⟩ ∧
    shortIncomingTwoFds.fds = [⟨7⟩, ⟨8⟩] ∧
    (staleBuf.recv 64 shortIncomingTwoFds).1 = .error (.validation .tooShort) ∧
    (staleBuf.recv 64 shortIncomingTwoFds).2.pid_fd = some ⟨3⟩ ∧
    (staleBuf.recv 64 shortIncomingTwoFds).2.pid_fd ≠ some ⟨7⟩ ∧
    (staleBuf.recv 64 shortIncomingTwoFds).2.mem_fd = some ⟨4⟩ := by decide

/-- C7 (amended): on every nonzero receive the envelope, notification and
response contents are replaced by the newly received values (the
envelope's `cookie_len` possibly reset to zero, the response possibly
overwritten with the prepared default verdict), so the buffer never still
reflects the previous message's contents; descriptor ownership however is
replaced only when validation succeeds — when validation fails the
previously owned descriptors are retained. -/
theorem C7_recv_replaces (u : Nat) (b : ProxyMessageBuffer) (inc : Incoming)
    (hsz : inc.size ≠ 0) : recvReplaceProp u b inc := by
  unfold recvReplaceProp
  rw [recv_nonzero u b inc hsz]
  rcases hp : (b.deliver inc).set_len u inc.size with ⟨r, b2⟩
  cases r with
  | error e =>
    have hsnd := set_len_err_snd u (b.deliver inc) inc.size e (by rw [hp])
    rw [hp] at hsnd
    simp only at hsnd ⊢
    rcases hsnd with hb | ⟨he, hb⟩ <;>
      subst hb <;>
      simp [ProxyMessageBuffer.deliver, ProxyMessageBuffer.resetForRead]
  | ok a =>
    cases a
    have hsnd := set_len_ok_snd u (b.deliver inc) inc.size (by rw [hp])
    rw [hp] at hsnd
    simp only at hsnd
    subst hsnd
    simp only
    split_ifs with hm
    · simp [ProxyMessageBuffer.drop_fds, ProxyMessageBuffer.deliver,
        ProxyMessageBuffer.resetForRead]
    · simp [ProxyMessageBuffer.deliver, ProxyMessageBuffer.resetForRead]

theorem C7_recv_replaces_witness :
    shortIncomingTwoFds.size ≠ 0 ∧ recvReplaceProp 64 staleBuf shortIncomingTwoFds :=
  ⟨by decide, C7_recv_replaces 64 staleBuf shortIncomingTwoFds (by decide)⟩

/-- C8: for every nonzero receive that reaches the cookie-length
conversion (the four earlier checks pass) with an `envelope.cookie_len`
that does not convert into the platform size type, validation fails with
the cookie-length-overflow error, the envelope's stored `cookie_len`
field is reset to zero before returning, and the cookie region's logical
length stays zero. -/
theorem C8_cookie_len_overflow (u : Nat) (b : ProxyMessageBuffer) (inc : Incoming)
    (hsz : inc.size ≠ 0)
    (h1 : b.seccomp_packet_size ≤ inc.size)
    (h2 : inc.msg.reserved0 = 0)
    (h3 : inc.msg.sizes = b.sizes)
    (h4 : inc.size - b.seccomp_packet_size ≤ b.cookie_buf.capacity)
    (h5 : ¬ inc.msg.cookie_len < 2 ^ u) :
    (b.recv u inc).1 = .error (.validation .cookieLenOverflow) ∧
    (b.recv u inc).2.proxy_msg.cookie_len = 0 ∧
    (b.recv u inc).2.cookie_buf.len = 0 := by
  have hcheck : (b.deliver inc).check_sizes = true := by
    simp [ProxyMessageBuffer.check_sizes, ProxyMessageBuffer.deliver,
      ProxyMessageBuffer.resetForRead, h3]
  have herr : ((b.deliver inc).set_len u inc.size).1 = .error .cookieLenOverflow := by
    obtain ⟨-, -, -, -, hov, -, -⟩ := set_len_cases u (b.deliver inc) inc.size
    rw [hov]
    refine ⟨?_, ?_, hcheck, ?_, ?_⟩ <;>
      simp [ProxyMessageBuffer.deliver, ProxyMessageBuffer.resetForRead,
        h1, h2, h4, h5]
  have hsnd := set_len_overflow_snd u (b.deliver inc) inc.size herr
  rw [recv_nonzero u b inc hsz]
  rcases hp : (b.deliver inc).set_len u inc.size with ⟨r, b2⟩
  rw [hp] at herr hsnd
  cases r with
  | ok a => simp at herr
  | error e =>
    simp only at herr hsnd
    injection herr with he
    subst he
    subst hsnd
    simp [ProxyMessageBuffer.deliver, ProxyMessageBuffer.resetForRead]

theorem C8_cookie_len_overflow_witness :
    (overflowIncoming.size ≠ 0 ∧
     sampleBuf.seccomp_packet_size ≤ overflowIncoming.size ∧
     overflowIncoming.msg.reserved0 = 0 ∧
     overflowIncoming.msg.sizes = sampleBuf.sizes ∧
     overflowIncoming.size - sampleBuf.seccomp_packet_size ≤
       sampleBuf.cookie_buf.capacity ∧
     ¬ overflowIncoming.msg.cookie_len < 2 ^ 32) ∧
    ((sampleBuf.recv 32 overflowIncoming).1 =
       .error (.validation .cookieLenOverflow) ∧
     (sampleBuf.recv 32 overflowIncoming).2.proxy_msg.cookie_len = 0 ∧
     (sampleBuf.recv 32 overflowIncoming).2.cookie_buf.len = 0) :=
  ⟨⟨by decide, by decide, by decide, by decide, by decide, by decide⟩,
   C8_cookie_len_overflow 32 sampleBuf overflowIncoming
     (by decide) (by decide) (by decide) (by decide) (by decide) (by decide)⟩

/-- C9: the cookie buffer's logical length is zero at construction, is
left at zero by every zero-byte receive and every validation-failure
path, and after any receive it is either zero or exactly the
`cookie_len` of the successfully validated message, within capacity and
in agreement with the slice exposed by the `cookie()` accessor — so
stale or uninitialized cookie bytes are never exposed. -/
theorem C9_cookie_length_invariant (u : Nat) (b : ProxyMessageBuffer) (inc : Incoming)
    (hwf : b.WF) :
    cookieLenInvariantProp u b inc ∧
    ∀ (ks : SeccompNotifSizes) (mc : Nat),
      (ProxyMessageBuffer.new ks mc).cookie_buf.len = 0 ∧
      (ProxyMessageBuffer.new ks mc).cookie = [] := by
  constructor
  · unfold cookieLenInvariantProp
    by_cases hsz : inc.size = 0
    · unfold ProxyMessageBuffer.recv
      rw [if_pos hsz]
      simp [ProxyMessageBuffer.resetForRead, ProxyMessageBuffer.cookie]
    · rw [recv_nonzero u b inc hsz]
      have hdel := deliver_WF b inc hwf
      unfold ProxyMessageBuffer.WF at hdel
      rcases hp : (b.deliver inc).set_len u inc.size with ⟨r, b2⟩
      cases r with
      | error e =>
        have hsnd := set_len_err_snd u (b.deliver inc) inc.size e (by rw [hp])
        rw [hp] at hsnd
        simp only at hsnd ⊢
        have hlen0 : b2.cookie_buf.len = 0 := by
          rcases hsnd with hb | ⟨-, hb⟩ <;> subst hb <;>
            simp [ProxyMessageBuffer.deliver, ProxyMessageBuffer.resetForRead]
        refine ⟨fun h => absurd h hsz, ?_, Or.inl hlen0⟩
        intro e2 _
        simp [ProxyMessageBuffer.cookie, hlen0]
      | ok a =>
        cases a
        obtain ⟨-, -, -, -, -, -, hok⟩ := set_len_cases u (b.deliver inc) inc.size
        have hconds := hok.mp (by rw [hp])
        have hsnd := set_len_ok_snd u (b.deliver inc) inc.size (by rw [hp])
        rw [hp] at hsnd
        simp only at hsnd
        subst hsnd
        have hcl : (b.deliver inc).proxy_msg.cookie_len ≤
            (b.deliver inc).cookie_buf.capacity := by
          obtain ⟨hc1, -, -, hc4, -, hc6⟩ := hconds
          omega
        simp only
        split_ifs with hm
        · refine ⟨fun h => absurd h hsz, ?_, Or.inr ⟨trivial, rfl, ?_, ?_⟩⟩
          · intro e2 he2
            simp at he2
          · simpa [ProxyMessageBuffer.drop_fds] using hcl
          · simp [ProxyMessageBuffer.drop_fds, ProxyMessageBuffer.cookie,
              List.length_take]
            omega
        · refine ⟨fun h => absurd h hsz, ?_, Or.inr ⟨trivial, rfl, ?_, ?_⟩⟩
          · intro e2 he2
            simp at he2
          · simpa using hcl
          · simp [ProxyMessageBuffer.cookie, List.length_take]
            omega
  · intro ks mc
    constructor
    · rfl
    · rfl

theorem C9_cookie_length_invariant_witness :
    staleBuf.WF ∧ cookieLenInvariantProp 64 staleBuf shortIncomingNoFds :=
  ⟨by decide, (C9_cookie_length_invariant 64 staleBuf shortIncomingNoFds (by decide)).1⟩

/-- C10: after every receive that returns successfully with more-data,
the `cookie_len()` accessor's internal conversion succeeds (no panic,
modelled as returning `some`), and its result equals both the length of
the slice exposed by `cookie()` and the envelope's stored `cookie_len`
field: all three agree. -/
theorem C10_cookie_len_accessor (u : Nat) (b : ProxyMessageBuffer) (inc : Incoming)
    (hwf : b.WF) (h : (b.recv u inc).1 = .ok true) :
    (b.recv u inc).2.cookie_len u = some ((b.recv u inc).2.cookie.length) ∧
    (b.recv u inc).2.cookie.length = (b.recv u inc).2.cookie_buf.len ∧
    (b.recv u inc).2.cookie_len u = some ((b.recv u inc).2.proxy_msg.cookie_len) := by
  obtain ⟨hsz, hok, hm2, hstate⟩ := recv_ok_true_inv u b inc h
  obtain ⟨-, -, -, -, -, -, hokiff⟩ := set_len_cases u (b.deliver inc) inc.size
  obtain ⟨hc1, -, -, hc4, hc5, hc6⟩ := hokiff.mp hok
  have hsnd := set_len_ok_snd u (b.deliver inc) inc.size hok
  have hdel := deliver_WF b inc hwf
  unfold ProxyMessageBuffer.WF at hdel
  rw [hstate, hsnd]
  unfold ProxyMessageBuffer.cookie_len ProxyMessageBuffer.cookie
  simp only
  rw [if_pos hc5]
  have hlen : ((b.deliver inc).cookie_buf.store.take
      (b.deliver inc).proxy_msg.cookie_len).length =
      (b.deliver inc).proxy_msg.cookie_len := by
    rw [List.length_take]
    omega
  rw [hlen]
  exact ⟨rfl, rfl, rfl⟩

theorem C10_cookie_len_accessor_witness :
    (sampleBuf.WF ∧ (sampleBuf.recv 64 goodIncoming).1 = .ok true) ∧
    ((sampleBuf.recv 64 goodIncoming).2.cookie_len 64 =
       some ((sampleBuf.recv 64 goodIncoming).2.cookie.length) ∧
     (sampleBuf.recv 64 goodIncoming).2.cookie.length =
       (sampleBuf.recv 64 goodIncoming).2.cookie_buf.len ∧
     (sampleBuf.recv 64 goodIncoming).2.cookie_len 64 =
       some ((sampleBuf.recv 64 goodIncoming).2.proxy_msg.cookie_len)) :=
  ⟨⟨by decide, by decide⟩,
   C10_cookie_len_accessor 64 sampleBuf goodIncoming (by decide) (by decide)⟩

end PveLxcSyscalld
